import Mathlib

/-!
Shallow embedding of the profile-construction core of the FreeCAD Fasteners
workbench sources (`FSAliases.py`, `FsFunctions/FSmakePin.py`,
`FsFunctions/FSmakeSelfTappingScrew.py`), together with proofs of the
specification's claims about it.

Numeric values computed by the Python code with `float` arithmetic are
embedded as rationals; the transcendental library functions the code calls
(`math.sin`, `math.cos`, `math.tan` composed with `math.radians`, and the
`sqrt2` constant imported from `screw_maker`) are abstracted into a record of
rational-valued functions, with the true facts about them that a proof needs
stated as hypotheses.
-/

namespace FastenersWB

/-- Modelled from the spec: the Profile Builder (`FastenerBase.FSFaceMaker`,
not included under `src/`) accumulates an ordered sequence of typed boundary
segments. `line r z` records an `AddPoint(r, z)` call (straight segment to an
explicit endpoint), `bspline rc zc r2 z2` records an `AddBSpline(rc, zc, r2,
z2)` call (spline fillet through corner `(rc, zc)` arriving at `(r2, z2)`),
and `arc2 cx cz angle` records an `AddArc2(cx, cz, angle)` call (arc whose
center is offset `(cx, cz)` from the previous point, swept by `angle`
degrees). -/
inductive Seg where
  | line (r z : ℚ)
  | bspline (rc zc r2 z2 : ℚ)
  | arc2 (cx cz angle : ℚ)
deriving DecidableEq, Repr

/-- Modelled from the spec: the real-valued library functions called by the
generators, abstracted as rational-valued parameters. `sind x` stands for
`math.sin(math.radians(x))`, `cosd x` for `math.cos(math.radians(x))`,
`tand x` for `math.tan(math.radians(x))`, and `sqrt2` for the `sqrt2`
constant (`√2`) imported from `screw_maker` (not included under `src/`). -/
structure RealFns where
  sind : ℚ → ℚ
  cosd : ℚ → ℚ
  tand : ℚ → ℚ
  sqrt2 : ℚ

/-- Modelled from the spec: the host geometry kernel's solid operations
(`RevolveZ`, `Part.makeCylinder` with a placement, Boolean `cut` and `fuse`,
`makeHCrossRecess`, `translate`, and the thread-envelope synthesizer
`makeDin7998Thread`), kept as a free algebra: each constructor records the
kernel call and its arguments, since the kernel itself is out of scope. -/
inductive Solid where
  | revolve (profile : List Seg)
  | cylinder (radius height : ℚ) (pos : ℚ × ℚ × ℚ) (axis : ℚ × ℚ × ℚ) (angle : ℚ)
  | cut (a b : Solid)
  | fuse (a b : Solid)
  | hCrossRecess (ph m : ℚ)
  | translate (s : Solid) (v : ℚ × ℚ × ℚ)
  | din7998Thread (zStart zTip zEnd ri ro pitch : ℚ) (omitTipThread : Bool)
deriving DecidableEq, Repr

/-- Modelled from the spec: the endpoint reached by a segment, given the
previous point. A line or spline fillet ends at its explicit endpoint; an
`arc2` segment ends at the previous point rotated about the recorded center
(previous point offset by `(cx, cz)`) by the sweep angle. -/
def segEnd (rf : RealFns) (prev : ℚ × ℚ) : Seg → ℚ × ℚ
  | .line r z => (r, z)
  | .bspline _ _ r2 z2 => (r2, z2)
  | .arc2 cx cz angle =>
      (prev.1 + cx + (-cx) * rf.cosd angle - (-cz) * rf.sind angle,
       prev.2 + cz + (-cx) * rf.sind angle + (-cz) * rf.cosd angle)

/-- Modelled from the spec: the successive boundary points of a profile,
starting from the revolution-axis origin. -/
def profilePoints (rf : RealFns) : ℚ × ℚ → List Seg → List (ℚ × ℚ)
  | _, [] => []
  | p, s :: rest =>
      let q := segEnd rf p s
      q :: profilePoints rf q rest

/-- The points of a profile traversed from the conventional origin. -/
def pointsOf (rf : RealFns) (segs : List Seg) : List (ℚ × ℚ) :=
  profilePoints rf (0, 0) segs

/-- Whether a segment is a spline fillet (`AddBSpline`). -/
def isBSplineSeg : Seg → Bool
  | .bspline _ _ _ _ => true
  | _ => false

/-! ## `FSAliases.py` -/

/-- The icon-alias table `FSIconAliases` of `FSAliases.py`. -/
def FSIconAliases : List (String × String) :=
  [("ISO299", "DIN508"), ("ISO7049-C", "GOST1144-4"), ("ISO7049-R", "GOST1144-4")]

/-- The type-alias table `FSTypeAliases` of `FSAliases.py`. -/
def FSTypeAliases : List (String × String) :=
  [("ISO299", "DIN508")]

/-- `FSGetIconAlias(name)`: return the aliased icon name when present,
otherwise the name unchanged. -/
def FSGetIconAlias (name : String) : String :=
  match FSIconAliases.lookup name with
  | some v => v
  | none => name

/-- `FSGetTypeAlias(type)`: return the aliased type name when present,
otherwise the name unchanged. -/
def FSGetTypeAlias (type : String) : String :=
  match FSTypeAliases.lookup type with
  | some v => v
  | none => type

/-- `FSAppendAliasesToTable(table)`: for each alias key, set the table entry
at the alias key to the table's entry at the canonical key. The Python
subscript `table[FSTypeAliases[item]]` raises `KeyError` when the canonical
entry is absent; this is embedded as an `Except` error carrying the missing
key. Tables are embedded as functions from keys to optional values. -/
def FSAppendAliasesToTable {V : Type} (table : String → Option V) :
    Except String (String → Option V) :=
  FSTypeAliases.foldlM
    (fun t kv =>
      match t kv.2 with
      | some v => .ok (fun x => if x = kv.1 then some v else t x)
      | none => .error kv.2)
    table

/-! ## `FsFunctions/FSmakePin.py` -/

/-- The input descriptor consumed by the generators: the base-type string,
the symbolic diameter key `calc_diam`, the resolved length `calc_len`, the
threaded flag, and the resolved dimension row `dimTable` (used by the
self-tapping screw generator). -/
structure FastenerSpec where
  baseType : String
  calc_diam : String
  calc_len : ℚ
  thread : Bool
  dimTable : List ℚ
deriving Repr

/-- Modelled from the spec: the standards table `FsData` from `screw_maker`
(not included under `src/`), embedded as a function from a table name and a
size key to an optional dimension row. -/
def FsDataTable : Type := String → String → Option (List ℚ)

/-- The rotation axis `FreeCAD.Vector(1, 0, 0)` used for transverse holes. -/
def xAxis : ℚ × ℚ × ℚ := (1, 0, 0)

/-- `makeTraversalHoles(self, d, h, les)`: cut one transverse cylindrical
hole of diameter `d` for each axial offset in `les`, each hole of height `h`
placed at `(0, h/2, le)` and rotated 90 degrees about the x axis. -/
def makeTraversalHoles (s : Solid) (d h : ℚ) (les : List ℚ) : Solid :=
  les.foldl
    (fun acc le => Solid.cut acc (Solid.cylinder (d / 2) h (0, h / 2, le) xAxis 90))
    s

/-- The profile built by `makeCylindricBody(self, l, dia, c, alfa)`: a
chamfered cylinder, the chamfer-start points offset by
`c * sin(radians(alfa))` from the full radius. -/
def cylindricBodyProfile (rf : RealFns) (l dia c alfa : ℚ) : List Seg :=
  [.line 0 0,
   .line (dia / 2 - c * rf.sind alfa) 0,
   .line (dia / 2) (-c),
   .line (dia / 2) (-l + c),
   .line (dia / 2 - c * rf.sind alfa) (-l),
   .line 0 (-l)]

/-- `makeCylindricBody(self, l, dia, c, alfa)`: revolve the chamfered
cylinder profile. -/
def makeCylindricBody (rf : RealFns) (l dia c alfa : ℚ) : Solid :=
  Solid.revolve (cylindricBodyProfile rf l dia c alfa)

/-- `makeDowelPin(self, fa)`: look up the chamfer `c` in the `ISO2338def`
table and build a chamfered cylinder with a 15 degree chamfer half-angle.
`parseMM` stands for `float(fa.calc_diam.strip(" mm"))`. -/
def makeDowelPin (rf : RealFns) (fsData : FsDataTable) (parseMM : String → ℚ)
    (fa : FastenerSpec) : Except String Solid :=
  let l := fa.calc_len
  let dia := parseMM fa.calc_diam
  match fsData "ISO2338def" fa.calc_diam with
  | none => .error ("KeyError: " ++ fa.calc_diam)
  | some row =>
      match row with
      | [c] => .ok (makeCylindricBody rf l dia c 15)
      | _ => .error "ValueError: unpack"

/-- The constant `taper = 1/50` of `makeTaperPin` (a 1:50 taper). -/
def taperRatio : ℚ := 1 / 50

/-- The enlarged top diameter `D = dia * (1 + taper)` of `makeTaperPin`. -/
def taperPinD (dia : ℚ) : ℚ := dia * (1 + taperRatio)

/-- The profile built by `makeTaperPin`: axis point, spline fillet to the
small end, line to the large end at radius `D/2`, spline fillet back to the
axis. -/
def taperPinProfile (dia l a : ℚ) : List Seg :=
  let D := taperPinD dia
  [.line 0 0,
   .bspline (dia / 2) 0 (dia / 2) (-a),
   .line (D / 2) (-l + a),
   .bspline (D / 2) (-l) 0 (-l)]

/-- `makeTaperPin(self, fa)`: look up `a` in the `ISO2339def` table and
revolve the taper-pin profile. -/
def makeTaperPin (_rf : RealFns) (fsData : FsDataTable) (parseMM : String → ℚ)
    (fa : FastenerSpec) : Except String Solid :=
  let l := fa.calc_len
  let dia := parseMM fa.calc_diam
  match fsData "ISO2339def" fa.calc_diam with
  | none => .error ("KeyError: " ++ fa.calc_diam)
  | some row =>
      match row with
      | [a] => .ok (Solid.revolve (taperPinProfile dia l a))
      | _ => .error "ValueError: unpack"

/-- `makeClevisPinWithoutHead(self, fa)`: look up `dl, c, le` in the
`ISO2340def` table, build a chamfered cylinder with a 30 degree chamfer
half-angle, and cut two transverse holes at `-le` and `-l + le`. -/
def makeClevisPinWithoutHead (rf : RealFns) (fsData : FsDataTable)
    (parseMM : String → ℚ) (fa : FastenerSpec) : Except String Solid :=
  let l := fa.calc_len
  let dia := parseMM fa.calc_diam
  match fsData "ISO2340def" fa.calc_diam with
  | none => .error ("KeyError: " ++ fa.calc_diam)
  | some row =>
      match row with
      | [dl, c, le] =>
          .ok (makeTraversalHoles (makeCylindricBody rf l dia c 30) dl dia [-le, -l + le])
      | _ => .error "ValueError: unpack"

/-- The profile built by `makeClevisPinWithHead` (lines 84 to 96 of
`FSmakePin.py`): head top, head chamfer using `e / sqrt2`
(`cos(45) = 1/sqrt(2)`), head side, rounding under the head as a spline
fillet, shaft, tip chamfer using `c/2` (`sin(30) = 1/2`), axis point. -/
def clevisPinWithHeadProfile (rf : RealFns) (dia l dk e k c r : ℚ) : List Seg :=
  [.line 0 k,
   .line (dk / 2 - e / rf.sqrt2) k,
   .line (dk / 2) (k - e),
   .line (dk / 2) 0,
   .line (dia / 2 + r) 0,
   .bspline (dia / 2) 0 (dia / 2) (-r),
   .line (dia / 2) (-l + c),
   .line (dia / 2 - c / 2) (-l),
   .line 0 (-l)]

/-- `makeClevisPinWithHead(self, fa)`: both ISO2341-A and ISO2341-B look up
the row `dk, dl, c, e, k, le, r` in the `ISO2341-Adef` table, revolve the
clevis-pin-with-head profile, and ISO2341-B additionally cuts one transverse
hole at `-l + le`. -/
def makeClevisPinWithHead (rf : RealFns) (fsData : FsDataTable)
    (parseMM : String → ℚ) (fa : FastenerSpec) : Except String Solid :=
  let l := fa.calc_len
  let dia := parseMM fa.calc_diam
  match fsData "ISO2341-Adef" fa.calc_diam with
  | none => .error ("KeyError: " ++ fa.calc_diam)
  | some row =>
      match row with
      | [dk, dl, c, e, k, le, r] =>
          let clevis := Solid.revolve (clevisPinWithHeadProfile rf dia l dk e k c r)
          if fa.baseType == "ISO2341-B" then
            .ok (makeTraversalHoles clevis dl dia [-l + le])
          else
            .ok clevis
      | _ => .error "ValueError: unpack"

/-- `makePin(self, fa)`: dispatch on the base-type string; an unrecognized
base type raises `NotImplementedError(f"Unknown fastener type: {fa.baseType}")`
before any table access. -/
def makePin (rf : RealFns) (fsData : FsDataTable) (parseMM : String → ℚ)
    (fa : FastenerSpec) : Except String Solid :=
  if fa.baseType == "ISO2338" then makeDowelPin rf fsData parseMM fa
  else if fa.baseType == "ISO2339" then makeTaperPin rf fsData parseMM fa
  else if fa.baseType == "ISO2340" then makeClevisPinWithoutHead rf fsData parseMM fa
  else if fa.baseType.take 7 == "ISO2341" then makeClevisPinWithHead rf fsData parseMM fa
  else .error ("Unknown fastener type: " ++ fa.baseType)

/-! ## `FsFunctions/FSmakeSelfTappingScrew.py` -/

/-- `getAverage(lower_limit, upper_limit)`: ISO norms give an interval for
some dimensions, use the average. -/
def getAverage (lower_limit upper_limit : ℚ) : ℚ :=
  (lower_limit + upper_limit) / 2

/-- The constant `full_length = True` of `makeISO7049`. -/
def full_length : Bool := true

/-- The screw-tip length of `makeISO7049`: `sr / tan(radians(45/2))` for the
conical and round points, overridden to `sr - d3/2` for the flat point
ISO7049-F. -/
def iso7049TipLength (rf : RealFns) (SType : String) (sr d3 : ℚ) : ℚ :=
  let alpha : ℚ := 45 / 2
  let tip_length := sr / rf.tand alpha
  if SType == "ISO7049-F" then sr - d3 / 2 else tip_length

/-- The profile built by `makeISO7049` (lines 117 to 156 of
`FSmakeSelfTappingScrew.py`): head spline, rounding under the head (a spline
when the shaft is threaded and `full_length` holds, an arc otherwise), the
unreachable non-`full_length` cylindrical part, then the tip segments
dispatched on the variant letter of the base type. -/
def iso7049Profile (rf : RealFns) (SType : String) (thread : Bool)
    (l dia d2 d3 D K r rR : ℚ) : List Seg :=
  let b := l
  let ri := d2 / 2
  let ro := dia / 2
  let sr := if thread then ri else ro
  let slope_length := ro - ri
  let tip_length := iso7049TipLength rf SType sr d3
  let rr := r
  let head : List Seg := [.line 0 K, .bspline (D / 2) K (D / 2) 0]
  let rounding : List Seg :=
    .line (ro + rr) 0 ::
      (if thread && full_length then [.bspline ro 0 sr (-slope_length)]
       else [.arc2 0 (-rr) 90])
  let cylPart : List Seg :=
    if full_length then []
    else (if thread then [.line ro (-l + b + slope_length)] else []) ++
      [.line sr (-l + b)]
  let tip : List Seg :=
    if SType == "ISO7049-C" then
      [.line sr (-l + tip_length), .line 0 (-l)]
    else if SType == "ISO7049-F" then
      [.line sr (-l + tip_length), .line (d3 / 2) (-l), .line 0 (-l)]
    else if SType == "ISO7049-R" then
      let angle : ℚ := 45
      [.line sr (-l + tip_length),
       .line (rR * rf.cosd angle) (rR - l),
       .arc2 (-(rR * rf.cosd angle)) (rR * rf.sind angle) (-angle)]
    else []
  head ++ rounding ++ cylPart ++ tip

/-- `makeISO7049(self, fa)`: read the thread-norm row from the `iso1478def`
table and the head row from `fa.dimTable`, reduce intervals by `getAverage`,
revolve the profile, cut the cross recess, and, when threading is requested,
fuse the synthesized thread — with the omit-tip-thread flag set exactly for
ISO7049-F, and the tip bound moved up by `rR` for ISO7049-R. For a threaded
`ISO7049` base type with an unhandled variant letter the Python code reads
the unbound local `thread` (a `NameError`), embedded as an error. `parseST`
stands for `float(fa.calc_diam.split()[1])`. -/
def makeISO7049 (rf : RealFns) (fsData : FsDataTable) (parseST : String → ℚ)
    (fa : FastenerSpec) : Except String Solid :=
  let SType := fa.baseType
  let l := fa.calc_len
  let dia := parseST fa.calc_diam
  match fsData "iso1478def" fa.calc_diam with
  | none => .error ("KeyError: " ++ fa.calc_diam)
  | some row =>
      match row with
      | [P, _, _, d2_max, d2_min, d3_max, d3_min, _, rR, _, _, _, _] =>
          let d2 := getAverage d2_min d2_max
          let d3 := getAverage d3_min d3_max
          match fa.dimTable with
          | [_, dk_max, dk_min, k_max, k_min, r, _, PH, m, h_max, h_min] =>
              let D := getAverage dk_min dk_max
              let K := getAverage k_min k_max
              let h := getAverage h_min h_max
              let b := l
              let ri := d2 / 2
              let ro := dia / 2
              let sr := if fa.thread then ri else ro
              let slope_length := ro - ri
              let tip_length := iso7049TipLength rf SType sr d3
              let profile := iso7049Profile rf SType fa.thread l dia d2 d3 D K r rR
              let screw := Solid.cut (Solid.revolve profile)
                (Solid.translate (Solid.hCrossRecess PH m) (0, 0, h))
              if fa.thread then
                if SType == "ISO7049-C" then
                  .ok (Solid.fuse screw
                    (Solid.din7998Thread (-l + b + slope_length) (-l + tip_length)
                      (-l) ri ro P false))
                else if SType == "ISO7049-F" then
                  .ok (Solid.fuse screw
                    (Solid.din7998Thread (-l + b + slope_length) (-l + tip_length)
                      (-l) ri ro P true))
                else if SType == "ISO7049-R" then
                  .ok (Solid.fuse screw
                    (Solid.din7998Thread (-l + b + slope_length) (-l + tip_length)
                      (-l + rR) ri ro P false))
                else .error "NameError: thread"
              else .ok screw
          | _ => .error "ValueError: unpack"
      | _ => .error "ValueError: unpack"

/-- `makeSelfTappingScrew(self, fa)`: dispatch on the first seven characters
of the base-type string; an unrecognized base type raises
`NotImplementedError(f"Unknown fastener type: {fa.baseType}")` before any
table access. -/
def makeSelfTappingScrew (rf : RealFns) (fsData : FsDataTable)
    (parseST : String → ℚ) (fa : FastenerSpec) : Except String Solid :=
  if fa.baseType.take 7 == "ISO7049" then makeISO7049 rf fsData parseST fa
  else .error ("Unknown fastener type: " ++ fa.baseType)

/-- The omit-tip-thread flag of the thread envelope fused into a finished
screw solid, when the solid has that shape. -/
def omitFlagOf : Solid → Option Bool
  | .fuse _ (.din7998Thread _ _ _ _ _ _ o) => some o
  | _ => none

/-- The base revolved profile underlying a finished solid, reached through
any Boolean cuts and fuses applied on top of it. -/
def profileOf : Solid → Option (List Seg)
  | .revolve p => some p
  | .cut a _ => profileOf a
  | .fuse a _ => profileOf a
  | _ => none

/-! ## Theorems -/

/-- C9: the interval-midpoint function `getAverage` satisfies, for all
bounds `lo` and `hi`: `getAverage lo hi = (lo + hi) / 2`, it is symmetric in
its arguments, and whenever `lo ≤ hi` the average lies between `lo` and
`hi`. -/
theorem getAverage_spec (lo hi : ℚ) :
    getAverage lo hi = (lo + hi) / 2 ∧
    getAverage lo hi = getAverage hi lo ∧
    (lo ≤ hi → lo ≤ getAverage lo hi ∧ getAverage lo hi ≤ hi) := by
  refine ⟨rfl, by unfold getAverage; ring, fun h => ⟨?_, ?_⟩⟩ <;>
    unfold getAverage <;> linarith

theorem getAverage_spec_witness :
    (1 : ℚ) ≤ 3 ∧ getAverage 1 3 = (1 + 3) / 2 ∧
      getAverage 1 3 = getAverage 3 1 ∧
      (1 : ℚ) ≤ getAverage 1 3 ∧ getAverage 1 3 ≤ 3 :=
  ⟨by norm_num, (getAverage_spec 1 3).1, (getAverage_spec 1 3).2.1,
   (getAverage_spec 1 3).2.2 (by norm_num)⟩

/-- C7: alias resolution is idempotent and defaults to identity: for every
string `x`, `FSGetTypeAlias (FSGetTypeAlias x) = FSGetTypeAlias x` and
`FSGetIconAlias (FSGetIconAlias x) = FSGetIconAlias x`, and whenever `x` is
not a key of the respective alias table the function returns `x`
unchanged. -/
theorem aliasResolution_idempotent (x : String) :
    FSGetTypeAlias (FSGetTypeAlias x) = FSGetTypeAlias x ∧
    FSGetIconAlias (FSGetIconAlias x) = FSGetIconAlias x ∧
    (FSTypeAliases.lookup x = none → FSGetTypeAlias x = x) ∧
    (FSIconAliases.lookup x = none → FSGetIconAlias x = x) := by
  refine ⟨?_, ?_, ?_, ?_⟩
  · by_cases h1 : x = "ISO299"
    · subst h1; decide
    · have hb1 : (x == "ISO299") = false := beq_eq_false_iff_ne.mpr h1
      have : FSTypeAliases.lookup x = none := by
        simp [FSTypeAliases, List.lookup, hb1]
      simp [FSGetTypeAlias, this]
  · by_cases h1 : x = "ISO299"
    · subst h1; decide
    · by_cases h2 : x = "ISO7049-C"
      · subst h2; decide
      · by_cases h3 : x = "ISO7049-R"
        · subst h3; decide
        · have hb1 : (x == "ISO299") = false := beq_eq_false_iff_ne.mpr h1
          have hb2 : (x == "ISO7049-C") = false := beq_eq_false_iff_ne.mpr h2
          have hb3 : (x == "ISO7049-R") = false := beq_eq_false_iff_ne.mpr h3
          have : FSIconAliases.lookup x = none := by
            simp [FSIconAliases, List.lookup, hb1, hb2, hb3]
          simp [FSGetIconAlias, this]
  · intro h; simp [FSGetTypeAlias, h]
  · intro h; simp [FSGetIconAlias, h]

theorem aliasResolution_idempotent_witness :
    FSGetTypeAlias "M6" = "M6" ∧ FSGetIconAlias "M6" = "M6" ∧
    FSGetTypeAlias (FSGetTypeAlias "ISO299") = FSGetTypeAlias "ISO299" :=
  ⟨(aliasResolution_idempotent "M6").2.2.1 (by decide),
   (aliasResolution_idempotent "M6").2.2.2 (by decide),
   (aliasResolution_idempotent "ISO299").1⟩

/-- C6: `FSAppendAliasesToTable` sets the entry at each alias key to the
value of the entry at its canonical key (so afterwards the aliased entry
equals its canonical counterpart), leaves every non-alias key unchanged, and
fails with the missing canonical key when the canonical entry is absent from
the destination table. With the source's alias table the one alias key is
`"ISO299"` and its canonical key is `"DIN508"`. -/
theorem appendAliases_spec {V : Type} (table : String → Option V) :
    (∀ v, table "DIN508" = some v →
      FSAppendAliasesToTable table =
        .ok (fun x => if x = "ISO299" then some v else table x) ∧
      ∀ t', FSAppendAliasesToTable table = .ok t' →
        t' "ISO299" = t' "DIN508" ∧ ∀ x, x ≠ "ISO299" → t' x = table x) ∧
    (table "DIN508" = none → FSAppendAliasesToTable table = .error "DIN508") := by
  constructor
  · intro v hv
    have hrun : FSAppendAliasesToTable table =
        .ok (fun x => if x = "ISO299" then some v else table x) := by
      simp [FSAppendAliasesToTable, FSTypeAliases, List.foldlM, hv]
    refine ⟨hrun, fun t' ht' => ?_⟩
    rw [hrun] at ht'
    have ht'' : t' = fun x => if x = "ISO299" then some v else table x :=
      (Except.ok.injEq _ _ ▸ ht').symm
    subst ht''
    refine ⟨by simp [hv], fun x hx => by simp [hx]⟩
  · intro hv
    simp [FSAppendAliasesToTable, FSTypeAliases, List.foldlM, hv]

theorem appendAliases_spec_witness :
    (fun x => if x = "DIN508" then some 5 else none) "DIN508" = some 5 ∧
    FSAppendAliasesToTable (fun x => if x = "DIN508" then some 5 else none) =
      .ok (fun x => if x = "ISO299" then some 5
        else (fun y => if y = "DIN508" then some 5 else none) x) ∧
    FSAppendAliasesToTable (V := ℕ) (fun _ => none) = .error "DIN508" :=
  ⟨by decide,
   ((appendAliases_spec (fun x => if x = "DIN508" then some 5 else none)).1 5
      (by decide)).1,
   (appendAliases_spec (V := ℕ) (fun _ => none)).2 rfl⟩

/-- C8: for every base-type string outside the supported set of its
dispatcher, `makePin` and `makeSelfTappingScrew` return the
unsupported-type error naming the offending base-type string, for every
standards table, parser and trigonometry model alike — so before any table
access or geometry construction, with no partial solid. -/
theorem unsupportedBaseType_fails (rf : RealFns) (fsData : FsDataTable)
    (parseMM parseST : String → ℚ) (fa : FastenerSpec)
    (h1 : fa.baseType ≠ "ISO2338") (h2 : fa.baseType ≠ "ISO2339")
    (h3 : fa.baseType ≠ "ISO2340") (h4 : fa.baseType.take 7 ≠ "ISO2341") :
    makePin rf fsData parseMM fa =
      .error ("Unknown fastener type: " ++ fa.baseType) ∧
    (fa.baseType.take 7 ≠ "ISO7049" →
      makeSelfTappingScrew rf fsData parseST fa =
        .error ("Unknown fastener type: " ++ fa.baseType)) := by
  constructor
  · simp [makePin, h1, h2, h3, h4]
  · intro h5; simp [makeSelfTappingScrew, h5]

theorem unsupportedBaseType_fails_witness :
    makePin ⟨fun _ => 0, fun _ => 0, fun _ => 0, 0⟩ (fun _ _ => none)
        (fun _ => 0) ⟨"ISO9999", "3 mm", 20, false, []⟩ =
      .error "Unknown fastener type: ISO9999" ∧
    makeSelfTappingScrew ⟨fun _ => 0, fun _ => 0, fun _ => 0, 0⟩
        (fun _ _ => none) (fun _ => 0) ⟨"ISO9999", "3 mm", 20, false, []⟩ =
      .error "Unknown fastener type: ISO9999" := by
  have h := unsupportedBaseType_fails ⟨fun _ => 0, fun _ => 0, fun _ => 0, 0⟩
    (fun _ _ => none) (fun _ => 0) (fun _ => 0)
    ⟨"ISO9999", "3 mm", 20, false, []⟩
    (by decide) (by decide) (by decide) (by decide)
  exact ⟨h.1, h.2 (by decide)⟩

/-- C3: for every input diameter the taper-pin generator computes the
enlarged top diameter `D = dia * (1 + 1/50) = dia * 1.02` exactly (so
`d = 10` gives `D = 10.2`), uses `D/2` as the radius of the two profile
points at the large end, and builds the profile's two rounded transitions as
spline fillets. -/
theorem taperPin_spec (rf : RealFns) (fsData : FsDataTable)
    (parseMM : String → ℚ) (fa : FastenerSpec) (a : ℚ)
    (hrow : fsData "ISO2339def" fa.calc_diam = some [a]) :
    (∀ d : ℚ, taperPinD d = d * (1 + 1 / 50) ∧ taperPinD d = d * 1.02) ∧
    taperPinD 10 = 10.2 ∧
    makeTaperPin rf fsData parseMM fa =
      .ok (Solid.revolve
        [.line 0 0,
         .bspline (parseMM fa.calc_diam / 2) 0 (parseMM fa.calc_diam / 2) (-a),
         .line (taperPinD (parseMM fa.calc_diam) / 2) (-fa.calc_len + a),
         .bspline (taperPinD (parseMM fa.calc_diam) / 2) (-fa.calc_len) 0
           (-fa.calc_len)]) ∧
    ((taperPinProfile (parseMM fa.calc_diam) fa.calc_len a).filter
      isBSplineSeg).length = 2 := by
  refine ⟨fun d => ⟨rfl, ?_⟩, by norm_num [taperPinD, taperRatio], ?_, ?_⟩
  · unfold taperPinD taperRatio; norm_num
  · simp [makeTaperPin, hrow, taperPinProfile]
  · simp [taperPinProfile, isBSplineSeg]

theorem taperPin_spec_witness :
    taperPinD 10 = 10.2 ∧
    makeTaperPin ⟨fun _ => 0, fun _ => 0, fun _ => 0, 0⟩ (fun _ _ => some [1])
        (fun _ => 10) ⟨"ISO2339", "10 mm", 40, false, []⟩ =
      .ok (Solid.revolve
        [.line 0 0, .bspline 5 0 5 (-1), .line (51 / 10) (-39),
         .bspline (51 / 10) (-40) 0 (-40)]) := by
  have h := taperPin_spec ⟨fun _ => 0, fun _ => 0, fun _ => 0, 0⟩
    (fun _ _ => some [1]) (fun _ => 10) ⟨"ISO2339", "10 mm", 40, false, []⟩ 1 rfl
  exact ⟨h.2.1, h.2.2.1.trans (by norm_num [taperPinD, taperRatio])⟩

/-- C2: for every positive length and diameter and table chamfer `c`, the
dowel-pin generator produces (via `makeCylindricBody` with a 15 degree
half-angle) a profile of exactly the six claimed points in order, the
chamfer-start points offset by `c * sin(15°)` from the full radius; and for
diameter 3 and length 20, with the table chamfer `c` in `[0, 3/2]` and the
sine model in `[0, 1]`, the profile has 6 points, all radii in `[0, 3/2]`
and all heights in `[-20, 0]`. -/
theorem dowelPin_spec (rf : RealFns) :
    (∀ (fsData : FsDataTable) (parseMM : String → ℚ) (fa : FastenerSpec)
        (c : ℚ),
      0 < fa.calc_len → 0 < parseMM fa.calc_diam →
      fsData "ISO2338def" fa.calc_diam = some [c] →
      makeDowelPin rf fsData parseMM fa =
        .ok (Solid.revolve
          [.line 0 0,
           .line (parseMM fa.calc_diam / 2 - c * rf.sind 15) 0,
           .line (parseMM fa.calc_diam / 2) (-c),
           .line (parseMM fa.calc_diam / 2) (-fa.calc_len + c),
           .line (parseMM fa.calc_diam / 2 - c * rf.sind 15) (-fa.calc_len),
           .line 0 (-fa.calc_len)])) ∧
    (∀ c : ℚ, 0 ≤ c → c ≤ 3 / 2 → 0 ≤ rf.sind 15 → rf.sind 15 ≤ 1 →
      (pointsOf rf (cylindricBodyProfile rf 20 3 c 15)).length = 6 ∧
      ∀ p ∈ pointsOf rf (cylindricBodyProfile rf 20 3 c 15),
        0 ≤ p.1 ∧ p.1 ≤ 3 / 2 ∧ -20 ≤ p.2 ∧ p.2 ≤ 0) := by
  constructor
  · intro fsData parseMM fa c _ _ hrow
    simp [makeDowelPin, hrow, makeCylindricBody, cylindricBodyProfile]
  · intro c hc0 hc1 hs0 hs1
    have hcs0 : 0 ≤ c * rf.sind 15 := mul_nonneg hc0 hs0
    have hcs1 : c * rf.sind 15 ≤ 3 / 2 := by nlinarith
    constructor
    · simp [pointsOf, profilePoints, segEnd, cylindricBodyProfile]
    · intro p hp
      simp only [pointsOf, profilePoints, segEnd, cylindricBodyProfile,
        List.mem_cons, List.not_mem_nil, or_false] at hp
      rcases hp with h | h | h | h | h | h <;> subst h <;>
        refine ⟨by norm_num <;> linarith, by norm_num <;> linarith,
          by norm_num <;> linarith, by norm_num <;> linarith⟩

theorem dowelPin_spec_witness :
    makeDowelPin ⟨fun _ => 1 / 4, fun _ => 0, fun _ => 0, 0⟩
        (fun _ _ => some [1 / 2]) (fun _ => 3)
        ⟨"ISO2338", "3 mm", 20, false, []⟩ =
      .ok (Solid.revolve
        [.line 0 0, .line (11 / 8) 0, .line (3 / 2) (-(1 / 2)),
         .line (3 / 2) (-(39 / 2)), .line (11 / 8) (-20), .line 0 (-20)]) ∧
    (pointsOf ⟨fun _ => 1 / 4, fun _ => 0, fun _ => 0, 0⟩
      (cylindricBodyProfile ⟨fun _ => 1 / 4, fun _ => 0, fun _ => 0, 0⟩
        20 3 (1 / 2) 15)).length = 6 := by
  have h := dowelPin_spec ⟨fun _ => 1 / 4, fun _ => 0, fun _ => 0, 0⟩
  refine ⟨(h.1 (fun _ _ => some [1 / 2]) (fun _ => 3)
      ⟨"ISO2338", "3 mm", 20, false, []⟩ (1 / 2) (by norm_num) (by norm_num)
      rfl).trans (by norm_num),
    (h.2 (1 / 2) (by norm_num) (by norm_num) (by norm_num) (by norm_num)).1⟩

/-- C1 (as stated, is false at the input below): for the clevis-pin-with-head
generator the under-head fillet is a spline even when the threaded flag is
unset, so the segment kind is not "spline iff threaded". Row data:
`dk = 5, dl = 1, c = 1, e = 1, k = 2, le = 2, r = 1`, diameter 3,
length 20, thread flag false. -/
theorem clevisHeadFillet_claim_false :
    FastenerSpec.thread ⟨"ISO2341-A", "3 mm", 20, false, []⟩ = false ∧
    makeClevisPinWithHead ⟨fun _ => 0, fun _ => 0, fun _ => 0, 1⟩
        (fun _ _ => some [5, 1, 1, 1, 2, 2, 1]) (fun _ => 3)
        ⟨"ISO2341-A", "3 mm", 20, false, []⟩ =
      .ok (Solid.revolve
        (clevisPinWithHeadProfile ⟨fun _ => 0, fun _ => 0, fun _ => 0, 1⟩
          3 20 5 1 2 1 1)) ∧
    ¬(isBSplineSeg
        ((clevisPinWithHeadProfile ⟨fun _ => 0, fun _ => 0, fun _ => 0, 1⟩
          3 20 5 1 2 1 1).getD 5 (.line 0 0)) = true ↔
      FastenerSpec.thread ⟨"ISO2341-A", "3 mm", 20, false, []⟩ = true) := by
  exact ⟨rfl, rfl, by decide⟩

/-- C1 (amended): for the clevis-pin-with-head generator the under-head
fillet is always represented as a spline — the sixth profile segment is the
spline fillet `AddBSpline(dia/2, 0, dia/2, -r)` for every input — and the
generator's output does not depend on the threaded flag at all. -/
theorem clevisHeadFillet_always_spline (rf : RealFns) (dia l dk e k c r : ℚ) :
    isBSplineSeg
      ((clevisPinWithHeadProfile rf dia l dk e k c r).getD 5 (.line 0 0)) =
      true ∧
    (clevisPinWithHeadProfile rf dia l dk e k c r).getD 5 (.line 0 0) =
      .bspline (dia / 2) 0 (dia / 2) (-r) ∧
    ∀ (fsData : FsDataTable) (parseMM : String → ℚ) (fa : FastenerSpec)
        (b : Bool),
      makeClevisPinWithHead rf fsData parseMM
          { fa with thread := b } =
        makeClevisPinWithHead rf fsData parseMM fa := by
  exact ⟨rfl, rfl, fun _ _ _ _ => rfl⟩

/-- C10: ISO2341-A and ISO2341-B read the same `ISO2341-Adef` dimension row
(the output depends on the standards table only through that table name) and
revolve the identical profile; ISO2341-B additionally cuts exactly one
transverse cylindrical hole of diameter `dl` centered on the axis at axial
position `-l + le`, while ISO2341-A performs no cut. -/
theorem clevisPinWithHead_AB (rf : RealFns) (fsData : FsDataTable)
    (parseMM : String → ℚ) (fa : FastenerSpec) (dk dl c e k le r : ℚ)
    (hrow : fsData "ISO2341-Adef" fa.calc_diam = some [dk, dl, c, e, k, le, r]) :
    makeClevisPinWithHead rf fsData parseMM
        { fa with baseType := "ISO2341-A" } =
      .ok (Solid.revolve
        (clevisPinWithHeadProfile rf (parseMM fa.calc_diam) fa.calc_len
          dk e k c r)) ∧
    makeClevisPinWithHead rf fsData parseMM
        { fa with baseType := "ISO2341-B" } =
      .ok (Solid.cut
        (Solid.revolve
          (clevisPinWithHeadProfile rf (parseMM fa.calc_diam) fa.calc_len
            dk e k c r))
        (Solid.cylinder (dl / 2) (parseMM fa.calc_diam)
          (0, parseMM fa.calc_diam / 2, -fa.calc_len + le) xAxis 90)) ∧
    ∀ g : FsDataTable,
      (∀ d, g "ISO2341-Adef" d = fsData "ISO2341-Adef" d) →
      ∀ ty : String,
        makeClevisPinWithHead rf g parseMM { fa with baseType := ty } =
          makeClevisPinWithHead rf fsData parseMM { fa with baseType := ty } := by
  refine ⟨?_, ?_, ?_⟩
  · simp [makeClevisPinWithHead, hrow]
  · simp [makeClevisPinWithHead, hrow, makeTraversalHoles]
  · intro g hg ty
    simp only [makeClevisPinWithHead, hg]

theorem clevisPinWithHead_AB_witness :
    makeClevisPinWithHead ⟨fun _ => 0, fun _ => 0, fun _ => 0, 1⟩
        (fun _ _ => some [5, 1, 1, 1, 2, 2, 1]) (fun _ => 3)
        ⟨"ISO2341-B", "3 mm", 20, false, []⟩ =
      .ok (Solid.cut
        (Solid.revolve
          (clevisPinWithHeadProfile ⟨fun _ => 0, fun _ => 0, fun _ => 0, 1⟩
            3 20 5 1 2 1 1))
        (Solid.cylinder (1 / 2) 3 (0, 3 / 2, -18) xAxis 90)) := by
  have h := clevisPinWithHead_AB ⟨fun _ => 0, fun _ => 0, fun _ => 0, 1⟩
    (fun _ _ => some [5, 1, 1, 1, 2, 2, 1]) (fun _ => 3)
    ⟨"ISO2341-B", "3 mm", 20, false, []⟩ 5 1 1 1 2 2 1 rfl
  exact h.2.1.trans (by norm_num)

/-- C4: the three ISO7049 variants, run with identical resolved dimensions
and flags, build profiles that agree on all four head and shank segments
added before the tip-shape dispatch and differ only in the final tip
segments; and when threading is requested, exactly the flat-point variant
ISO7049-F invokes the thread synthesizer with the omit-tip-thread flag set,
while ISO7049-C and ISO7049-R invoke it with the flag unset. -/
theorem iso7049_variants (rf : RealFns) (thread : Bool)
    (l dia d2 d3 D K r rR : ℚ) :
    ((iso7049Profile rf "ISO7049-C" thread l dia d2 d3 D K r rR).take 4 =
      (iso7049Profile rf "ISO7049-F" thread l dia d2 d3 D K r rR).take 4 ∧
     (iso7049Profile rf "ISO7049-F" thread l dia d2 d3 D K r rR).take 4 =
      (iso7049Profile rf "ISO7049-R" thread l dia d2 d3 D K r rR).take 4) ∧
    ((iso7049Profile rf "ISO7049-C" thread l dia d2 d3 D K r rR).drop 4 =
      [.line (if thread then d2 / 2 else dia / 2)
         (-l + iso7049TipLength rf "ISO7049-C"
           (if thread then d2 / 2 else dia / 2) d3),
       .line 0 (-l)] ∧
     (iso7049Profile rf "ISO7049-F" thread l dia d2 d3 D K r rR).drop 4 =
      [.line (if thread then d2 / 2 else dia / 2)
         (-l + iso7049TipLength rf "ISO7049-F"
           (if thread then d2 / 2 else dia / 2) d3),
       .line (d3 / 2) (-l),
       .line 0 (-l)] ∧
     (iso7049Profile rf "ISO7049-R" thread l dia d2 d3 D K r rR).drop 4 =
      [.line (if thread then d2 / 2 else dia / 2)
         (-l + iso7049TipLength rf "ISO7049-R"
           (if thread then d2 / 2 else dia / 2) d3),
       .line (rR * rf.cosd 45) (rR - l),
       .arc2 (-(rR * rf.cosd 45)) (rR * rf.sind 45) (-45)]) ∧
    (∀ (fsData : FsDataTable) (parseST : String → ℚ) (fa : FastenerSpec)
        (P x2 x3 d2mx d2mn d3mx d3mn x8 rR' yC yF yR x13
         x1 dkmx dkmn kmx kmn r' x7 PH m hmx hmn : ℚ),
      fa.thread = true →
      fsData "iso1478def" fa.calc_diam =
        some [P, x2, x3, d2mx, d2mn, d3mx, d3mn, x8, rR', yC, yF, yR, x13] →
      fa.dimTable = [x1, dkmx, dkmn, kmx, kmn, r', x7, PH, m, hmx, hmn] →
      (∃ s, makeISO7049 rf fsData parseST { fa with baseType := "ISO7049-F" } =
          .ok s ∧ omitFlagOf s = some true) ∧
      (∃ s, makeISO7049 rf fsData parseST { fa with baseType := "ISO7049-C" } =
          .ok s ∧ omitFlagOf s = some false) ∧
      (∃ s, makeISO7049 rf fsData parseST { fa with baseType := "ISO7049-R" } =
          .ok s ∧ omitFlagOf s = some false)) := by
  refine ⟨⟨?_, ?_⟩, ⟨?_, ?_, ?_⟩, ?_⟩
  · cases thread <;> simp [iso7049Profile, full_length]
  · cases thread <;> simp [iso7049Profile, full_length]
  · cases thread <;> simp [iso7049Profile, full_length]
  · cases thread <;> simp [iso7049Profile, full_length]
  · cases thread <;> simp [iso7049Profile, full_length]
  · intro fsData parseST fa P x2 x3 d2mx d2mn d3mx d3mn x8 rR' yC yF yR x13
      x1 dkmx dkmn kmx kmn r' x7 PH m hmx hmn hth hrow hdim
    refine ⟨?_, ?_, ?_⟩ <;>
      simp [makeISO7049, hrow, hdim, hth, omitFlagOf]

theorem iso7049_variants_witness :
    ((iso7049Profile ⟨fun _ => 0, fun _ => 0, fun _ => 1, 1⟩ "ISO7049-C"
        true 10 2 1 1 2 2 1 1).take 4 =
      (iso7049Profile ⟨fun _ => 0, fun _ => 0, fun _ => 1, 1⟩ "ISO7049-F"
        true 10 2 1 1 2 2 1 1).take 4) ∧
    (∃ s, makeISO7049 ⟨fun _ => 0, fun _ => 0, fun _ => 1, 1⟩
        (fun _ _ => some [1, 0, 0, 1, 1, 1, 1, 0, 1, 0, 0, 0, 0])
        (fun _ => 2)
        ⟨"ISO7049-F", "ST 2", 10, true, [0, 4, 4, 2, 2, 1, 0, 1, 1, 2, 2]⟩ =
      .ok s ∧ omitFlagOf s = some true) := by
  have h := iso7049_variants ⟨fun _ => 0, fun _ => 0, fun _ => 1, 1⟩
    true 10 2 1 1 2 2 1 1
  have h2 := (h.2.2 (fun _ _ => some [1, 0, 0, 1, 1, 1, 1, 0, 1, 0, 0, 0, 0])
    (fun _ => 2)
    ⟨"ISO7049-F", "ST 2", 10, true, [0, 4, 4, 2, 2, 1, 0, 1, 1, 2, 2]⟩
    1 0 0 1 1 1 1 0 1 0 0 0 0 0 4 4 2 2 1 0 1 1 2 2 rfl rfl rfl).1
  exact ⟨h.1.1, h2⟩

/-- C5: for every supported pin generator and self-tapping-screw variant and
all inputs, the first and the last point of the finalized profile lie on the
revolution axis (radial coordinate 0). The single hypothesis is the true
trigonometric fact `cos 45 * cos (-45) + sin 45 * sin (-45) = 0` about the
abstracted trigonometric model, needed for the round-point arc of
ISO7049-R. -/
theorem profiles_closed (rf : RealFns)
    (hc : rf.cosd 45 * rf.cosd (-45) + rf.sind 45 * rf.sind (-45) = 0) :
    (∀ l dia c alfa : ℚ,
      (pointsOf rf (cylindricBodyProfile rf l dia c alfa)).head?.map
        Prod.fst = some 0 ∧
      (pointsOf rf (cylindricBodyProfile rf l dia c alfa)).getLast?.map
        Prod.fst = some 0) ∧
    (∀ dia l a : ℚ,
      (pointsOf rf (taperPinProfile dia l a)).head?.map Prod.fst = some 0 ∧
      (pointsOf rf (taperPinProfile dia l a)).getLast?.map Prod.fst = some 0) ∧
    (∀ dia l dk e k c r : ℚ,
      (pointsOf rf (clevisPinWithHeadProfile rf dia l dk e k c r)).head?.map
        Prod.fst = some 0 ∧
      (pointsOf rf (clevisPinWithHeadProfile rf dia l dk e k c r)).getLast?.map
        Prod.fst = some 0) ∧
    (∀ (SType : String), SType = "ISO7049-C" ∨ SType = "ISO7049-F" ∨
        SType = "ISO7049-R" →
      ∀ (thread : Bool) (l dia d2 d3 D K r rR : ℚ),
      (pointsOf rf (iso7049Profile rf SType thread l dia d2 d3 D K r rR)).head?.map
        Prod.fst = some 0 ∧
      (pointsOf rf (iso7049Profile rf SType thread l dia d2 d3 D K r rR)).getLast?.map
        Prod.fst = some 0) := by
  refine ⟨?_, ?_, ?_, ?_⟩
  · intro l dia c alfa
    constructor <;> simp [pointsOf, profilePoints, segEnd, cylindricBodyProfile]
  · intro dia l a
    constructor <;> simp [pointsOf, profilePoints, segEnd, taperPinProfile]
  · intro dia l dk e k c r
    constructor <;>
      simp [pointsOf, profilePoints, segEnd, clevisPinWithHeadProfile]
  · rintro SType (rfl | rfl | rfl) thread l dia d2 d3 D K r rR <;>
      constructor <;> cases thread <;>
      simp [pointsOf, profilePoints, segEnd, iso7049Profile, full_length] <;>
      linear_combination rR * hc

theorem profiles_closed_witness :
    (pointsOf ⟨fun _ => 0, fun _ => 0, fun _ => 1, 1⟩
      (iso7049Profile ⟨fun _ => 0, fun _ => 0, fun _ => 1, 1⟩ "ISO7049-R"
        true 10 2 1 1 2 2 1 1)).getLast?.map Prod.fst = some 0 ∧
    (pointsOf ⟨fun _ => 0, fun _ => 0, fun _ => 1, 1⟩
      (cylindricBodyProfile ⟨fun _ => 0, fun _ => 0, fun _ => 1, 1⟩
        20 3 (1 / 2) 15)).head?.map Prod.fst = some 0 := by
  have h := profiles_closed ⟨fun _ => 0, fun _ => 0, fun _ => 1, 1⟩
    (by norm_num)
  exact ⟨(h.2.2.2 "ISO7049-R" (Or.inr (Or.inr rfl)) true 10 2 1 1 2 2 1 1).2,
    (h.1 20 3 (1 / 2) 15).1⟩

end FastenersWB
